import Mathlib

/-!
Shallow embedding of the message-intake pipeline of the interior-design AI
service (FastAPI + Pub/Sub push), covering:

* `app/utils/validators.py`   — payload sanitisation / validation / quality
  assessment (`sanitize_data`, `validate_client_data`, `assess_data_quality`,
  `validate_and_clean_data`);
* `app/services/message_tracker.py` — the Firestore deduplication / retry
  ledger (`MessageTracker.check_and_increment`, `MessageTracker.mark_processed`);
* `app/routers/webhooks.py`   — the push intake endpoint
  (`handle_pubsub_push_notification`, the in-memory `endpoint_retry_counts`)
  and the background task (`process_client_profile_generation`).

Modelling conventions:

* Python JSON-like values are the inductive `JVal`; Python floats are modelled
  as exact rationals (only their truthiness and detected type matter on the
  verified paths, never binary rounding).
* Python dicts are association lists `List (key × value)`; dict order is
  insertion order, as in CPython.
* Code that can raise is embedded in `Except` (or routed to an explicit
  error branch); stdlib base64/UTF-8/JSON decoding of the envelope payload is
  abstracted as a `String → Option JVal` parameter, since only the routing on
  its success/failure is the repository's code.
* Timestamps (`datetime.now`) are abstract `Nat` parameters threaded
  explicitly.
-/

namespace InteriorAI

/-- Python/JSON values as they occur in decoded Pub/Sub payloads:
strings, ints, floats (modelled as exact rationals), booleans, `None`,
lists and dicts (insertion-ordered association lists). -/
inductive JVal where
  | s (v : String)
  | i (v : Int)
  | f (v : ℚ)
  | b (v : Bool)
  | null
  | arr (xs : List JVal)
  | obj (kvs : List (String × JVal))

/-- First-match association-list lookup (Python dict `get` semantics on a
duplicate-free list). -/
def alistLookup {κ α : Type} [DecidableEq κ] : List (κ × α) → κ → Option α
  | [], _ => none
  | (k, v) :: rest, key => if k = key then some v else alistLookup rest key

/-- Replace the value stored under `key` (Firestore `transaction.update` /
dict assignment to an existing key): every entry with that key is rewritten,
other entries are untouched. -/
def alistUpdate {κ α : Type} [DecidableEq κ] : List (κ × α) → κ → α → List (κ × α)
  | [], _, _ => []
  | (k1, v1) :: rest, key, v =>
    if k1 = key then (key, v) :: alistUpdate rest key v
    else (k1, v1) :: alistUpdate rest key v

/-- Python dict assignment `d[key] = v`: overwrite when present, append when
absent. -/
def alistAssign {κ α : Type} [DecidableEq κ] (l : List (κ × α)) (key : κ) (v : α) :
    List (κ × α) :=
  if (alistLookup l key).isSome then alistUpdate l key v else l ++ [(key, v)]

/-- Python `needle in hay` for strings over the character list of `hay`. -/
def subOccurs (needle : List Char) : List Char → Bool
  | [] => needle.isEmpty
  | c :: rest => needle.isPrefixOf (c :: rest) || subOccurs needle rest

/-- Python substring test `sub in hay`. -/
def strContains (hay sub : String) : Bool := subOccurs sub.data hay.data

/-- Python `re` with a `$` anchor also matches just before one trailing
newline; strip it before the fully-anchored checks below. -/
def pyDollarStrip (s : String) : String :=
  if s.endsWith "\n" then s.dropRight 1 else s

/-- Python `str.lower()` (ASCII range, which is all the source's field names
and keyword tables use), computably over the character list. -/
def pyLower (s : String) : String := String.mk (s.data.map Char.toLower)

/-! ## `app/utils/validators.py` -/

/-- `validate_email` — the anchored pattern
`[a-zA-Z0-9._%+-]+@[a-zA-Z0-9.-]+\.[a-zA-Z]\x7b2,\x7d`: one `@` separating a
non-empty local part over the first class from a domain whose last
dot-separated segment is an alphabetic run of length at least two. -/
def emailLocalChar (c : Char) : Bool :=
  c.isAlphanum || c = '.' || c = '_' || c = '%' || c = '+' || c = '-'

/-- Characters admitted by the domain class `[a-zA-Z0-9.-]` of the email
pattern. -/
def emailDomainChar (c : Char) : Bool :=
  c.isAlphanum || c = '.' || c = '-'

/-- Non-empty run over a character class (a `+`-quantified class). -/
def charRun (p : Char → Bool) (s : String) : Bool :=
  !s.isEmpty && s.all p

/-- `validate_email(email)` from `validators.py`. -/
def validate_email (email : String) : Bool :=
  if email = "" then false
  else
    let s := pyDollarStrip email
    match s.splitOn "@" with
    | [localPart, domain] =>
      charRun emailLocalChar localPart &&
      (match domain.splitOn "." with
       | [] => false
       | [_] => false  -- no dot in the domain: the `\.` cannot match
       | p :: q :: rest =>
         let tld := (p :: q :: rest).getLastD ""
         let stem := String.intercalate "." (p :: q :: rest).dropLast
         charRun emailDomainChar stem && tld.length ≥ 2 && tld.all Char.isAlpha)
    | _ => false

/-- `validate_phone(phone)`: strip non-digits (`re.sub(r'\D', '', phone)`,
restricted to ASCII digits in this model) and require 7–15 digits. -/
def validate_phone (phone : String) : Bool :=
  if phone = "" then false
  else
    let digits := phone.data.filter Char.isDigit
    decide (7 ≤ digits.length) && decide (digits.length ≤ 15)

/-- `\d+` fully anchored. -/
def allDigits1 (s : String) : Bool := !s.isEmpty && s.all Char.isDigit

/-- `\d+,\d+` fully anchored. -/
def digitsComma (s : String) : Bool :=
  match s.splitOn "," with
  | [a, b] => allDigits1 a && allDigits1 b
  | _ => false

/-- `\d+-\d+` fully anchored (the hyphen occurs exactly once). -/
def digitsDash (s : String) : Bool :=
  match s.splitOn "-" with
  | [a, b] => allDigits1 a && allDigits1 b
  | _ => false

/-- `\d+,\d+-\d+,\d+` fully anchored. -/
def digitsCommaDash (s : String) : Bool :=
  match s.splitOn "-" with
  | [a, b] => digitsComma a && digitsComma b
  | _ => false

/-- Strip the leading `\$` of a budget pattern. -/
def stripDollar (s : String) : Option String :=
  if s.startsWith "$" then some (s.drop 1) else none

/-- `validate_budget_range(budget)`: any of the six anchored patterns of the
source. -/
def validate_budget_range (budget : String) : Bool :=
  if budget = "" then false
  else
    let s := pyDollarStrip budget
    let dollar := fun (q : String → Bool) =>
      match stripDollar s with
      | some t => q t
      | none => false
    dollar digitsDash ||          -- ^\$\d+-\d+$
    dollar digitsCommaDash ||     -- ^\$\d+,\d+-\d+,\d+$
    digitsDash s ||               -- ^\d+-\d+$
    dollar allDigits1 ||          -- ^\$\d+$
    allDigits1 s ||               -- ^\d+$
    dollar digitsComma            -- ^\$\d+,\d+$

/-- The `valid_types` list of `validate_project_type`. -/
def valid_types : List String :=
  ["living room", "bedroom", "kitchen", "bathroom", "dining room",
   "home office", "basement", "attic", "garage", "outdoor space",
   "entire home", "apartment", "condo", "studio", "loft",
   "commercial space", "retail space", "office space", "restaurant",
   "hotel room", "vacation home", "renovation", "new construction"]

/-- `validate_project_type(project_type)`. -/
def validate_project_type (project_type : String) : Bool :=
  if project_type = "" then false
  else valid_types.contains (pyLower project_type)

/-- The `valid_styles` list of `validate_style_preference`. -/
def valid_styles : List String :=
  ["modern", "contemporary", "traditional", "classic", "minimalist",
   "scandinavian", "industrial", "rustic", "farmhouse", "coastal",
   "bohemian", "mid-century modern", "art deco", "victorian",
   "mediterranean", "asian", "tropical", "eclectic", "luxury",
   "budget-friendly", "sustainable", "smart home"]

/-- `validate_style_preference(style)`. -/
def validate_style_preference (style : String) : Bool :=
  if style = "" then false
  else valid_styles.contains (pyLower style)

/-- `^\d+\.\d+$` fully anchored. -/
def isFloatStr (s : String) : Bool :=
  match s.splitOn "." with
  | [a, b] => allDigits1 a && allDigits1 b
  | _ => false

/-- `detect_field_type(value)`.  Note the CPython quirk kept by this model:
`bool` is a subclass of `int`, so `isinstance(value, int)` catches booleans
first and the `boolean` branch of the source is unreachable. -/
def detect_field_type (v : JVal) : String :=
  match v with
  | .null => "null"
  | .s str =>
    if validate_email str then "email"
    else if validate_phone str then "phone"
    else if validate_budget_range str then "budget"
    else if validate_project_type str then "project_type"
    else if validate_style_preference str then "style"
    else if allDigits1 (pyDollarStrip str) then "integer_string"
    else if isFloatStr (pyDollarStrip str) then "float_string"
    else "string"
  | .i _ => "integer"
  | .f _ => "float"
  | .b _ => "integer"   -- isinstance(True, int) holds in Python
  | .arr _ => "array"
  | .obj _ => "object"

/-- Python `repr` of a decoded JSON value, as used by `str()` on non-string
values (quote-escaping subtleties of `repr` and binary float formatting are
not reproduced; floats render as exact rationals). -/
def pyQuote (v : String) : String :=
  let q := String.singleton (Char.ofNat 39)
  q ++ v ++ q

mutual

def pyRepr : JVal → String
  | .s v => pyQuote v
  | .i v => toString v
  | .f v => toString v
  | .b v => if v then "True" else "False"
  | .null => "None"
  | .arr xs => "[" ++ pyReprList xs ++ "]"
  | .obj kvs => "\x7b" ++ pyReprObj kvs ++ "\x7d"

def pyReprList : List JVal → String
  | [] => ""
  | [x] => pyRepr x
  | x :: y :: rest => pyRepr x ++ ", " ++ pyReprList (y :: rest)

def pyReprObj : List (String × JVal) → String
  | [] => ""
  | [(k, v)] => pyQuote k ++ ": " ++ pyRepr v
  | (k, v) :: p :: rest => pyQuote k ++ ": " ++ pyRepr v ++ ", " ++ pyReprObj (p :: rest)

end

/-- Python `str(value)`: identity on strings, `repr`-style otherwise. -/
def pyStr : JVal → String
  | .s v => v
  | v => pyRepr v

/-- The `sensitive_fields` list of `sanitize_data`. -/
def sensitive_fields : List String :=
  ["password", "token", "key", "secret", "auth", "credential"]

/-- A key is dropped by `sanitize_data` iff its lowercase form contains one of
the sensitive substrings. -/
def hasSensitive (k : String) : Bool :=
  sensitive_fields.any (fun sf => strContains (pyLower k) sf)

/-- `' '.join(value.split())`: collapse whitespace runs to single spaces. -/
def collapseWs (s : String) : String :=
  String.intercalate " " ((s.split Char.isWhitespace).filter (fun t => !t.isEmpty))

/-- Truncate very long strings to 1000 characters plus an ellipsis. -/
def pyTruncate (s : String) : String :=
  if s.length > 1000 then s.take 1000 ++ "..." else s

/-- Per-value cleaning of `sanitize_data`: strings get whitespace collapsed
and truncated; every other value is kept as is. -/
def sanitizeVal : JVal → JVal
  | .s str => .s (pyTruncate (collapseWs str))
  | v => v

/-- `sanitize_data(data)`: drop keys containing a sensitive substring, clean
string values, keep everything else. -/
def sanitize_data (data : List (String × JVal)) : List (String × JVal) :=
  (data.filter (fun kv => !hasSensitive kv.1)).map (fun kv => (kv.1, sanitizeVal kv.2))

/-- The indexing block of `validate_client_data`: look up the first matching
field name (`data[matching_fields[0]]`) and run `check` on its value; a
missing key is a raised `KeyError`. -/
def firstFieldCheck (data : List (String × JVal)) (fieldsFiltered : List String)
    (check : JVal → List String) : Except String (List String) :=
  match fieldsFiltered with
  | [] => .ok []
  | k :: _ =>
    match alistLookup data k with
    | some v => .ok (check v)
    | none => .error "KeyError"

/-- `validate_client_data(data)`: required-field check, then email format of
the first email-like field, then phone format of the first phone-like field.
Dict subscription is the only raising operation on this path. -/
def validate_client_data (data : List (String × JVal)) :
    Except String (Bool × List String) :=
  let keys := data.map Prod.fst
  let reqErrors :=
    (["client_name", "email"].filter
      (fun fld => !(keys.any (fun k => strContains (pyLower k) fld)))).map
      (fun fld => "Missing required field: " ++ fld)
  let emailErrors :=
    firstFieldCheck data (keys.filter (fun k => strContains (pyLower k) "email"))
      (fun v => if validate_email (pyStr v) then []
                else ["Invalid email format: " ++ pyStr v])
  let phoneErrors :=
    firstFieldCheck data (keys.filter (fun k => strContains (pyLower k) "phone"))
      (fun v => if validate_phone (pyStr v) then []
                else ["Invalid phone format: " ++ pyStr v])
  match emailErrors, phoneErrors with
  | .ok e2, .ok e3 =>
    let errors := reqErrors ++ e2 ++ e3
    .ok (errors.isEmpty, errors)
  | .error msg, _ => .error msg
  | _, .error msg => .error msg

/-- The report built by `assess_data_quality`. -/
structure QualityReport where
  total_fields : Nat
  field_types : List (String × List String)
  missing_critical_fields : List String
  invalid_fields : List String
  quality_score : ℚ
  recommendations : List String

/-- Append `k` to the bucket of `ty` (creating the bucket at the end on first
use), mirroring the `field_types` dict building loop. -/
def groupAdd (acc : List (String × List String)) (ty k : String) :
    List (String × List String) :=
  if (alistLookup acc ty).isSome then
    acc.map (fun p => if p.1 = ty then (p.1, p.2 ++ [k]) else p)
  else acc ++ [(ty, [k])]

/-- The `field_mappings` table of `assess_data_quality`. -/
def critical_field_mappings : List (String × List String) :=
  [("client_name", ["name", "client_name", "full_name", "clientName", "fullName"]),
   ("email", ["email", "email_address", "contact_email", "emailAddress"]),
   ("project_type", ["project_type", "projectType", "type", "service_type"])]

/-- `assess_data_quality(data)`: field typing, critical-field detection via
the alias table, per-field format checks, quality score and recommendations.
Total — it performs no raising operation (`max(len(data), 1)` keeps the
denominator positive). -/
def assess_data_quality (data : List (String × JVal)) : QualityReport :=
  let keys := data.map Prod.fst
  let field_types :=
    data.foldl (fun acc kv => groupAdd acc (detect_field_type kv.2) kv.1) []
  let found :=
    (critical_field_mappings.filter (fun c => c.2.any (fun n => keys.contains n))).length
  let missing :=
    (critical_field_mappings.filter (fun c => !(c.2.any (fun n => keys.contains n)))).map
      Prod.fst
  let invalid := data.filterMap (fun kv =>
    match kv.2 with
    | .s str =>
      if ["email", "email_address"].contains (pyLower kv.1) then
        (if validate_email str then none
         else some (kv.1 ++ ": invalid email format"))
      else if ["phone", "phone_number"].contains (pyLower kv.1) then
        (if validate_phone str then none
         else some (kv.1 ++ ": invalid phone format"))
      else none
    | _ => none)
  let score : ℚ :=
    ((found : ℚ) / 3 + (1 - (invalid.length : ℚ) / (max data.length 1 : Nat))) / 2
  let recs :=
    (if missing.isEmpty then []
     else ["Add missing critical fields: " ++ String.intercalate ", " missing]) ++
    (if invalid.isEmpty then []
     else ["Fix invalid fields: " ++ String.intercalate ", " invalid]) ++
    (if score < 1 / 2 then ["Overall data quality is low - review all fields"] else [])
  { total_fields := data.length
    field_types := field_types
    missing_critical_fields := missing
    invalid_fields := invalid
    quality_score := score
    recommendations := recs }

/-- `validate_and_clean_data(data)`: sanitise, validate (the one fallible
step), assess quality, and return the cleaned mapping with the accumulated
data-quality warnings.  The `0.3` threshold of the source is the exact
rational `3/10` here; the score only selects warnings, never a raise. -/
def validate_and_clean_data (data : List (String × JVal)) :
    Except String (List (String × JVal) × List String) :=
  let cleaned := sanitize_data data
  match validate_client_data cleaned with
  | .error e => .error e
  | .ok (_, validation_errors) =>
    let qr := assess_data_quality cleaned
    let errors := validation_errors ++
      (if qr.quality_score < 3 / 10 then
        ["Data quality is very low - manual review recommended"] else [])
    .ok (cleaned, errors)

/-! ## `app/services/message_tracker.py`

The Firestore collection `pubsub_messages` is an association list from
message id to document; the transactional read-modify-write of
`check_and_increment` is a pure function on it (the claims below concern its
sequential semantics, not store concurrency). -/

/-- The `status` field of a ledger document (`"processing" | "processed"`). -/
inductive MsgStatus where
  | processing
  | processed
deriving DecidableEq

/-- A `pubsub_messages` document as written by `MessageTracker`. -/
structure MsgRecord where
  attempts : Nat
  status : MsgStatus
  created_at : Nat
  updated_at : Nat
  processed_at : Option Nat
deriving DecidableEq

/-- The `pubsub_messages` collection. -/
abbrev Ledger := List (String × MsgRecord)

/-- `MessageTracker.MAX_ATTEMPTS` (defined in `message_tracker.py`; note that
the webhook endpoint never imports it). -/
def MAX_ATTEMPTS : Nat := 5

/-- `MessageTracker.check_and_increment(message_id)`: inside one transaction,
return `-1` for an already `processed` document without touching it, create
`attempts=1, status=processing` when the document is absent, and otherwise
bump `attempts` (and restamp `status`/`updated_at`), returning the new count.
`now` stands for `datetime.now(timezone.utc)`. -/
def check_and_increment (now : Nat) (l : Ledger) (id : String) : Int × Ledger :=
  match alistLookup l id with
  | some r =>
    if r.status = MsgStatus.processed then (-1, l)
    else
      let a := r.attempts + 1
      ((a : Int),
       alistUpdate l id
         { r with attempts := a, status := .processing, updated_at := now })
  | none =>
    (1, l ++ [(id, { attempts := 1, status := .processing, created_at := now,
                     updated_at := now, processed_at := none })])

/-- `MessageTracker.mark_processed(message_id)`: a Firestore `update` setting
`status="processed"` and stamping `processed_at`; `update` on a missing
document raises `NotFound`, modelled as the error branch. -/
def mark_processed (now : Nat) (l : Ledger) (id : String) : Except Unit Ledger :=
  match alistLookup l id with
  | some r =>
    .ok (alistUpdate l id { r with status := .processed, processed_at := some now })
  | none => .error ()

/-- A sequence of ledger operations (each carrying its wall-clock stamp). -/
inductive LedgerOp where
  | check (id : String) (now : Nat)
  | mark (id : String) (now : Nat)

/-- Run one ledger operation; a failing `mark_processed` (missing document)
leaves the collection untouched. -/
def runOp (l : Ledger) : LedgerOp → Ledger
  | .check id now => (check_and_increment now l id).2
  | .mark id now =>
    match mark_processed now l id with
    | .ok l2 => l2
    | .error _ => l

/-- Run a sequence of ledger operations left to right. -/
def runOps (l : Ledger) : List LedgerOp → Ledger
  | [] => l
  | op :: rest => runOps (runOp l op) rest

/-- Repeated `check_and_increment` calls for one id (at the given stamps),
collecting the returned values. -/
def checkMany (l : Ledger) (id : String) : List Nat → List Int × Ledger
  | [] => ([], l)
  | t :: ts =>
    let step := check_and_increment t l id
    let rest := checkMany step.2 id ts
    (step.1 :: rest.1, rest.2)

/-- The `attempts` field visible for `id` (0 when no document exists). -/
def attemptsAt (l : Ledger) (id : String) : Nat :=
  match alistLookup l id with
  | some r => r.attempts
  | none => 0

/-- Whether the document for `id` exists with `status == "processed"`. -/
def processedFlag (l : Ledger) (id : String) : Bool :=
  match alistLookup l id with
  | some r => decide (r.status = MsgStatus.processed)
  | none => false

/-! ## `app/routers/webhooks.py` -/

/-- A Python dict key as it can arise from `message.get("messageId",
"unknown")`: any hashable JSON value (lists/dicts are unhashable and raise
`TypeError` when used as a key, handled at the use sites). -/
inductive MsgKey where
  | kstr (v : String)
  | kint (v : Int)
  | kfloat (v : ℚ)
  | kbool (v : Bool)
  | knull
deriving DecidableEq

/-- The module-level `endpoint_retry_counts` dict. -/
abbrev RetryCounts := List (MsgKey × Nat)

/-- `MAX_ENDPOINT_RETRIES` from `webhooks.py`. -/
def MAX_ENDPOINT_RETRIES : Nat := 3

/-- `get_endpoint_retry_count(message_id)`: `endpoint_retry_counts.get(message_id, 0)`. -/
def get_endpoint_retry_count (counts : RetryCounts) (k : MsgKey) : Nat :=
  match alistLookup counts k with
  | some n => n
  | none => 0

/-- `increment_endpoint_retry_count(message_id)`: bump and return the new
count. -/
def increment_endpoint_retry_count (counts : RetryCounts) (k : MsgKey) :
    Nat × RetryCounts :=
  let n := get_endpoint_retry_count counts k + 1
  (n, alistAssign counts k n)

/-- `clear_endpoint_retry_count(message_id)`: `endpoint_retry_counts.pop(message_id, None)`. -/
def clear_endpoint_retry_count (counts : RetryCounts) (k : MsgKey) : RetryCounts :=
  counts.filter (fun p => decide (p.1 ≠ k))

/-- `message_data.get("messageId", "unknown")` turned into a dict key:
`none` marks the unhashable cases (a list or dict `messageId`), where the
first `endpoint_retry_counts` access raises `TypeError` — and so does the
retry-increment inside the generic `except` handler, so the request ends as
an unhandled 500 with no state change. -/
def extractMsgId (msg : List (String × JVal)) : Option MsgKey :=
  match alistLookup msg "messageId" with
  | none => some (.kstr "unknown")
  | some (.s v) => some (.kstr v)
  | some (.i v) => some (.kint v)
  | some (.f v) => some (.kfloat v)
  | some (.b v) => some (.kbool v)
  | some .null => some .knull
  | some (.arr _) => none
  | some (.obj _) => none

/-- Python truthiness of a decoded JSON value (`if not encoded_data`). -/
def pyFalsy : JVal → Bool
  | .s v => v == ""
  | .i v => v == 0
  | .f v => decide (v = 0)
  | .b v => !v
  | .null => true
  | .arr xs => xs.isEmpty
  | .obj kvs => kvs.isEmpty

/-- `elem == "data"` under Python `==`, for the list-membership case of
`"data" in client_data`. -/
def isStrData : JVal → Bool
  | .s v => v == "data"
  | _ => false

/-- The unwrap step `if "data" in client_data: client_data = client_data["data"]`.
On a dict it takes the `"data"` entry when present; on a string `in` is a
substring test and on a list a membership test, after which the subscription
`client_data["data"]` raises `TypeError`; on any other value `in` itself
raises `TypeError`.  Errors land in the endpoint's generic `except` handler. -/
def unwrapClientData : JVal → Except Unit JVal
  | .obj kvs =>
    .ok (match alistLookup kvs "data" with
         | some d => d
         | none => .obj kvs)
  | .s v => if strContains v "data" then .error () else .ok (.s v)
  | .arr xs => if xs.any isStrData then .error () else .ok (.arr xs)
  | _ => .error ()

/-- The HTTP response of one push delivery plus the background-task
scheduling decision (`background_tasks.add_task(process_client_profile_generation,
client_data, message_id)` arguments, when a task was added). -/
structure HandleOut where
  statusCode : Nat
  scheduled : Option (JVal × MsgKey)

/-- The request body of a push delivery: either bytes that are not valid
JSON (`json.loads` raises) or the parsed JSON value. -/
inductive ReqBody where
  | notJson
  | json (v : JVal)

/-- The generic `except Exception` handler of the endpoint: increment the
in-memory retry count for the message; acknowledge with 204 (and clear the
count) once `MAX_ENDPOINT_RETRIES` is reached, otherwise answer 500 so that
Pub/Sub redelivers. -/
def genericExceptPath (counts : RetryCounts) (mid : MsgKey) :
    RetryCounts × HandleOut :=
  let step := increment_endpoint_retry_count counts mid
  if MAX_ENDPOINT_RETRIES ≤ step.1 then
    (clear_endpoint_retry_count step.2 mid, ⟨204, none⟩)
  else (step.2, ⟨500, none⟩)

/-- `handle_pubsub_push_notification`, `webhooks.py` lines 39–153.
`decode` abstracts the stdlib chain `base64.b64decode(...).decode("utf-8")`
followed by `json.loads` (`none` = one of the three caught decode errors).
The function returns the new `endpoint_retry_counts` and the response:

* body not JSON → `HTTPException(400)` (re-raised, retry count untouched);
* non-dict body, non-dict `message` value, or unhashable `messageId` →
  unhandled `AttributeError`/`TypeError`/`NameError` → 500, state untouched;
* retry count already at the limit → clear the count, acknowledge 204,
  schedule nothing;
* falsy/absent `data` → `HTTPException(400)`;
* decode failure of a string `data` → `HTTPException(400)`;
* non-string truthy `data`, or an unwrap `TypeError` → generic handler;
* otherwise → schedule the background task, clear the count, answer 204.

No `MessageTracker` call occurs anywhere in this handler. -/
def handle_pubsub_push_notification (decode : String → Option JVal)
    (counts : RetryCounts) (body : ReqBody) : RetryCounts × HandleOut :=
  match body with
  | .notJson => (counts, ⟨400, none⟩)
  | .json push =>
    match push with
    | .obj pm =>
      match (match alistLookup pm "message" with
             | some m => m
             | none => JVal.obj []) with
      | .obj msg =>
        match extractMsgId msg with
        | none => (counts, ⟨500, none⟩)
        | some mid =>
          if MAX_ENDPOINT_RETRIES ≤ get_endpoint_retry_count counts mid then
            (clear_endpoint_retry_count counts mid, ⟨204, none⟩)
          else
            let encoded := match alistLookup msg "data" with
                           | some d => d
                           | none => JVal.s ""
            if pyFalsy encoded then (counts, ⟨400, none⟩)
            else
              match encoded with
              | .s sdata =>
                match decode sdata with
                | none => (counts, ⟨400, none⟩)
                | some decoded =>
                  match unwrapClientData decoded with
                  | .ok clientData =>
                    (clear_endpoint_retry_count counts mid,
                     ⟨204, some (clientData, mid)⟩)
                  | .error _ => genericExceptPath counts mid
              | _ => genericExceptPath counts mid
      | _ => (counts, ⟨500, none⟩)
    | _ => (counts, ⟨500, none⟩)

/-- Status codes Google Pub/Sub push treats as acknowledgment ("do not
redeliver"): 102, 200, 201, 202, 204.  Anything else asks for redelivery. -/
def isAckStatus (n : Nat) : Bool := [102, 200, 201, 202, 204].contains n

/-- The process state relevant to one delivery: the in-memory endpoint retry
dict plus the durable Firestore ledger.  The handler reads and writes only
the former; the ledger appears here exactly to record that it is never
consulted. -/
structure AppState where
  counts : RetryCounts
  ledger : Ledger

/-- One push delivery against the whole process state.  The body of
`handle_pubsub_push_notification` contains no `MessageTracker` access, so the
ledger component passes through unchanged. -/
def handleSystem (decode : String → Option JVal) (st : AppState) (body : ReqBody) :
    AppState × HandleOut :=
  let step := handle_pubsub_push_notification decode st.counts body
  ({ st with counts := step.1 }, step.2)

/-! ## The background task `process_client_profile_generation`
(`webhooks.py` lines 156–242, with `process_message_callback` and
`PubSubService.process_client_form_message` from `pubsub_service.py`). -/

/-- Outcome record of one background-task invocation.  `raised` says whether
the task propagated an exception to its scheduler (the outer
`except Exception` handler only logs, so it never does); the `*Runs` fields
count how many times each pipeline stage was started within the invocation. -/
structure ProcResult where
  completed : Bool
  raised : Bool
  normalizeRuns : Nat
  genRuns : Nat
  sendRuns : Nat

/-- The normalization stage: `process_client_form_message` runs
`validate_and_clean_data(message_data)` on the decoded payload.  A non-dict
payload raises inside `sanitize_data` (`data.items()`), and any raise is
re-raised by `handle_service_error`. -/
def normalizeStage (client_data : JVal) : Except Unit (List (String × JVal) × List String) :=
  match client_data with
  | .obj kvs =>
    match validate_and_clean_data kvs with
    | .ok r => .ok r
    | .error _ => .error ()
  | _ => .error ()

/-- `process_client_profile_generation(client_data, message_id)`.  The three
collaborator stages past normalization — `ClientFormData.from_raw_data`, the
Gen-AI profile call, the email dispatch — are abstracted by their success
flags.  Control flow from the source: any stage failure propagates up through
`process_message_callback` into the task's outer `except Exception`, which
logs and returns; on full success the task logs completion.  In both cases
the function returns — and the `Ledger` argument is returned untouched,
because the source never invokes `MessageTracker.mark_processed` (or any
other `MessageTracker` method). -/
def process_client_profile_generation (ledger : Ledger) (client_data : JVal)
    (_message_id : String) (convertOk genOk sendOk : Bool) :
    Ledger × ProcResult :=
  match normalizeStage client_data with
  | .error _ => (ledger, ⟨false, false, 1, 0, 0⟩)
  | .ok _ =>
    if !convertOk then (ledger, ⟨false, false, 1, 0, 0⟩)
    else if !genOk then (ledger, ⟨false, false, 1, 1, 0⟩)
    else if !sendOk then (ledger, ⟨false, false, 1, 1, 1⟩)
    else (ledger, ⟨true, false, 1, 1, 1⟩)

/-! ## Concrete scenario inputs (shared by the theorems below) -/

/-- The client-form payload of the spec's success scenario. -/
def samplePayload : JVal :=
  .obj [("client_name", .s "John Doe"), ("email", .s "john@example.com"),
        ("project_type", .s "Kitchen Remodel")]

/-- A stand-in for the base64 text whose decode yields `samplePayload`. -/
def sampleB64 : String := "cGF5bG9hZDY0"

/-- A concrete decoder: succeeds exactly on `sampleB64`, yielding
`samplePayload`; anything else fails like an invalid base64/UTF-8/JSON
payload. -/
def sampleDecode : String → Option JVal :=
  fun s => if s = sampleB64 then some samplePayload else none

/-- A well-formed push envelope carrying `sampleB64` under message id `m1`. -/
def sampleEnvelope : JVal :=
  .obj [("message", .obj [("data", .s sampleB64), ("messageId", .s "m1"),
                          ("publishTime", .s "2024-01-01T00:00:00Z")]),
        ("subscription", .s "projects/p/subscriptions/s")]

/-- A ledger in which `m1` has already completed (`status == "processed"`). -/
def processedLedger : Ledger :=
  [("m1", { attempts := 1, status := .processed, created_at := 0,
            updated_at := 0, processed_at := some 0 })]

/-- A ledger in which `m1` is mid-flight (`status == "processing"`). -/
def processingLedger : Ledger :=
  [("m1", { attempts := 1, status := .processing, created_at := 0,
            updated_at := 0, processed_at := none })]

/-! ## Association-list lemmas -/

theorem alistLookup_update_self {κ α : Type} [DecidableEq κ]
    {l : List (κ × α)} {k : κ} (v : α) (h : (alistLookup l k).isSome) :
    alistLookup (alistUpdate l k v) k = some v := by
  induction l with
  | nil => simp [alistLookup] at h
  | cons hd tl ih =>
    obtain ⟨k1, v1⟩ := hd
    by_cases hk : k1 = k
    · subst hk
      simp [alistLookup, alistUpdate]
    · simp [alistLookup, alistUpdate, hk] at h ⊢
      exact ih h

theorem alistLookup_update_ne {κ α : Type} [DecidableEq κ]
    {l : List (κ × α)} {k k2 : κ} (v : α) (h : k2 ≠ k) :
    alistLookup (alistUpdate l k v) k2 = alistLookup l k2 := by
  induction l with
  | nil => rfl
  | cons hd tl ih =>
    obtain ⟨k1, v1⟩ := hd
    by_cases hk : k1 = k
    · subst hk
      simp [alistLookup, alistUpdate, Ne.symm h, ih]
    · by_cases h12 : k1 = k2 <;> simp [alistLookup, alistUpdate, hk, h12, h, ih]

theorem alistLookup_append {κ α : Type} [DecidableEq κ]
    (l1 l2 : List (κ × α)) (k : κ) :
    alistLookup (l1 ++ l2) k =
      match alistLookup l1 k with
      | some v => some v
      | none => alistLookup l2 k := by
  induction l1 with
  | nil => simp [alistLookup]
  | cons hd tl ih =>
    obtain ⟨k1, v1⟩ := hd
    by_cases hk : k1 = k <;> simp [alistLookup, hk, ih]

theorem alistUpdate_idem {κ α : Type} [DecidableEq κ]
    (l : List (κ × α)) (k : κ) (v : α) :
    alistUpdate (alistUpdate l k v) k v = alistUpdate l k v := by
  induction l with
  | nil => rfl
  | cons hd tl ih =>
    obtain ⟨k1, v1⟩ := hd
    by_cases hk : k1 = k <;> simp [alistUpdate, hk] at ih ⊢ <;> exact ih

theorem alistLookup_isSome_of_mem {κ α : Type} [DecidableEq κ]
    {l : List (κ × α)} {k : κ} (h : k ∈ l.map Prod.fst) :
    ∃ v, alistLookup l k = some v := by
  induction l with
  | nil => simp at h
  | cons hd tl ih =>
    obtain ⟨k1, v1⟩ := hd
    by_cases hk : k1 = k
    · exact ⟨v1, by simp [alistLookup, hk]⟩
    · simp only [List.map_cons, List.mem_cons] at h
      rcases h with h | h
      · exact absurd h.symm hk
      · obtain ⟨v, hv⟩ := ih h
        exact ⟨v, by simp [alistLookup, hk, hv]⟩

/-! ## Ledger lemmas -/

theorem check_of_processed {l : Ledger} {id : String} {r : MsgRecord}
    (hr : alistLookup l id = some r) (hs : r.status = MsgStatus.processed)
    (t : Nat) : check_and_increment t l id = (-1, l) := by
  simp [check_and_increment, hr, hs]

theorem check_of_processedFlag {l : Ledger} {id : String}
    (h : processedFlag l id = true) (t : Nat) :
    check_and_increment t l id = (-1, l) := by
  unfold processedFlag at h
  cases hr : alistLookup l id with
  | none => simp [hr] at h
  | some r =>
    rw [hr] at h
    simp at h
    exact check_of_processed hr h t

theorem mark_ok_elim {now : Nat} {l : Ledger} {id : String} {l2 : Ledger}
    (h : mark_processed now l id = .ok l2) :
    ∃ r, alistLookup l id = some r ∧
      l2 = alistUpdate l id
        { r with status := .processed, processed_at := some now } := by
  unfold mark_processed at h
  cases hr : alistLookup l id with
  | none => rw [hr] at h; exact absurd h (by simp)
  | some r =>
    rw [hr] at h
    refine ⟨r, rfl, ?_⟩
    cases h
    rfl

theorem processedFlag_after_mark {now : Nat} {l : Ledger} {id : String}
    {l2 : Ledger} (h : mark_processed now l id = .ok l2) :
    processedFlag l2 id = true := by
  obtain ⟨r, hr, rfl⟩ := mark_ok_elim h
  rw [processedFlag, alistLookup_update_self _ (by simp [hr])]
  rfl

theorem check_lookup_other (t : Nat) (l : Ledger) {cid id : String}
    (hne : cid ≠ id) :
    alistLookup (check_and_increment t l cid).2 id = alistLookup l id := by
  cases hc : alistLookup l cid with
  | none =>
    simp only [check_and_increment, hc]
    rw [alistLookup_append]
    cases hi : alistLookup l id with
    | none => simp [alistLookup, hne]
    | some r => simp
  | some r =>
    by_cases hs : r.status = MsgStatus.processed
    · simp [check_and_increment, hc, hs]
    · simp only [check_and_increment, hc]
      rw [if_neg hs]
      exact alistLookup_update_ne _ (Ne.symm hne)

theorem check_lookup_self_absent (t : Nat) (l : Ledger) {cid : String}
    (hc : alistLookup l cid = none) :
    alistLookup (check_and_increment t l cid).2 cid =
      some { attempts := 1, status := .processing, created_at := t,
             updated_at := t, processed_at := none } := by
  simp only [check_and_increment, hc]
  rw [alistLookup_append, hc]
  simp [alistLookup]

theorem check_lookup_self_active (t : Nat) (l : Ledger) {cid : String}
    {r : MsgRecord} (hc : alistLookup l cid = some r)
    (hs : r.status ≠ MsgStatus.processed) :
    alistLookup (check_and_increment t l cid).2 cid =
      some { r with attempts := r.attempts + 1, status := .processing,
                    updated_at := t } := by
  simp only [check_and_increment, hc]
  rw [if_neg hs]
  exact alistLookup_update_self _ (by simp [hc])

theorem mark_runOp_lookup_other (t : Nat) (l : Ledger) {cid id : String}
    (hne : cid ≠ id) :
    alistLookup (runOp l (.mark cid t)) id = alistLookup l id := by
  show alistLookup (match mark_processed t l cid with
                    | .ok l2 => l2
                    | .error _ => l) id = alistLookup l id
  cases hm : mark_processed t l cid with
  | error e => rfl
  | ok l2 =>
    obtain ⟨r, hr, rfl⟩ := mark_ok_elim hm
    exact alistLookup_update_ne _ (Ne.symm hne)

theorem mark_runOp_lookup_self (t : Nat) (l : Ledger) {cid : String}
    {r : MsgRecord} (hr : alistLookup l cid = some r) :
    alistLookup (runOp l (.mark cid t)) cid =
      some { r with status := .processed, processed_at := some t } := by
  show alistLookup (match mark_processed t l cid with
                    | .ok l2 => l2
                    | .error _ => l) cid = _
  rw [show mark_processed t l cid =
        .ok (alistUpdate l cid
          { r with status := .processed, processed_at := some t }) from by
        simp [mark_processed, hr]]
  exact alistLookup_update_self _ (by simp [hr])

theorem attemptsAt_runOp_mono (l : Ledger) (op : LedgerOp) (id : String) :
    attemptsAt l id ≤ attemptsAt (runOp l op) id := by
  cases op with
  | check cid t =>
    show attemptsAt l id ≤ attemptsAt (check_and_increment t l cid).2 id
    by_cases hid : cid = id
    · subst hid
      cases hc : alistLookup l cid with
      | none =>
        unfold attemptsAt
        rw [check_lookup_self_absent t l hc, hc]
        simp
      | some r =>
        by_cases hs : r.status = MsgStatus.processed
        · rw [check_of_processed hc hs]
        · unfold attemptsAt
          rw [check_lookup_self_active t l hc hs, hc]
          simp
    · unfold attemptsAt
      rw [check_lookup_other t l hid]
  | mark cid t =>
    by_cases hid : cid = id
    · subst hid
      cases hr : alistLookup l cid with
      | none =>
        have : runOp l (.mark cid t) = l := by
          show (match mark_processed t l cid with
                | .ok l2 => l2
                | .error _ => l) = l
          simp [mark_processed, hr]
        rw [this]
      | some r =>
        unfold attemptsAt
        rw [mark_runOp_lookup_self t l hr, hr]
    · unfold attemptsAt
      rw [mark_runOp_lookup_other t l hid]

theorem processedFlag_runOp_mono (l : Ledger) (op : LedgerOp) (id : String)
    (h : processedFlag l id = true) :
    processedFlag (runOp l op) id = true := by
  cases op with
  | check cid t =>
    show processedFlag (check_and_increment t l cid).2 id = true
    by_cases hid : cid = id
    · subst hid
      rw [check_of_processedFlag h t]
      exact h
    · unfold processedFlag at h ⊢
      rw [check_lookup_other t l hid]
      exact h
  | mark cid t =>
    by_cases hid : cid = id
    · subst hid
      unfold processedFlag at h
      cases hr : alistLookup l cid with
      | none => rw [hr] at h; exact absurd h (by simp)
      | some r =>
        unfold processedFlag
        rw [mark_runOp_lookup_self t l hr]
        rfl
    · unfold processedFlag at h ⊢
      rw [mark_runOp_lookup_other t l hid]
      exact h

theorem attemptsAt_runOps_mono (ops : List LedgerOp) (l : Ledger) (id : String) :
    attemptsAt l id ≤ attemptsAt (runOps l ops) id := by
  induction ops generalizing l with
  | nil => exact le_refl _
  | cons op rest ih =>
    exact le_trans (attemptsAt_runOp_mono l op id) (ih (runOp l op))

theorem processedFlag_runOps_mono (ops : List LedgerOp) (l : Ledger) (id : String)
    (h : processedFlag l id = true) :
    processedFlag (runOps l ops) id = true := by
  induction ops generalizing l with
  | nil => exact h
  | cons op rest ih =>
    exact ih (runOp l op) (processedFlag_runOp_mono l op id h)

theorem runOps_append (a b : List LedgerOp) (l : Ledger) :
    runOps l (a ++ b) = runOps (runOps l a) b := by
  induction a generalizing l with
  | nil => rfl
  | cons op rest ih => simp [runOps, ih]

/-! ## Validator lemmas -/

theorem firstFieldCheck_ok (data : List (String × JVal)) (p : String → Bool)
    (check : JVal → List String) :
    ∃ r, firstFieldCheck data ((data.map Prod.fst).filter p) check =
      Except.ok r := by
  cases hf : (data.map Prod.fst).filter p with
  | nil => exact ⟨[], by simp [firstFieldCheck]⟩
  | cons k rest =>
    have hk : k ∈ (data.map Prod.fst).filter p := by
      rw [hf]; exact List.mem_cons_self k rest
    obtain ⟨v, hv⟩ := alistLookup_isSome_of_mem (List.mem_of_mem_filter hk)
    exact ⟨check v, by simp [firstFieldCheck, hv]⟩

theorem validate_client_data_ok (data : List (String × JVal)) :
    ∃ r, validate_client_data data = Except.ok r := by
  obtain ⟨e2, h2⟩ := firstFieldCheck_ok data
    (fun k => strContains (pyLower k) "email")
    (fun v => if validate_email (pyStr v) then []
              else ["Invalid email format: " ++ pyStr v])
  obtain ⟨e3, h3⟩ := firstFieldCheck_ok data
    (fun k => strContains (pyLower k) "phone")
    (fun v => if validate_phone (pyStr v) then []
              else ["Invalid phone format: " ++ pyStr v])
  simp only [validate_client_data, h2, h3]
  exact ⟨_, rfl⟩

theorem validate_and_clean_data_ok (data : List (String × JVal)) :
    ∃ w, validate_and_clean_data data = Except.ok (sanitize_data data, w) := by
  obtain ⟨r, hr⟩ := validate_client_data_ok (sanitize_data data)
  obtain ⟨b, verrs⟩ := r
  refine ⟨verrs ++
    (if (assess_data_quality (sanitize_data data)).quality_score < 3 / 10 then
      ["Data quality is very low - manual review recommended"] else []), ?_⟩
  simp only [validate_and_clean_data]
  rw [hr]

/-! ## The claims -/

/-- C2: for every non-empty message id and every ledger state,
`check_and_increment` (i) creates an `attempts=1, status=processing` record
and returns 1 when no record exists, (ii) returns the already-done outcome
`-1` without modifying the ledger when the record is `processed`, and
(iii) increments `attempts` and returns the new value when the record is
`processing`. -/
theorem c2_check_and_increment_spec (now : Nat) (l : Ledger) (id : String)
    (_hid : id ≠ "") :
    (alistLookup l id = none →
      check_and_increment now l id =
        (1, l ++ [(id, { attempts := 1, status := .processing, created_at := now,
                         updated_at := now, processed_at := none })]) ∧
      alistLookup (check_and_increment now l id).2 id =
        some { attempts := 1, status := .processing, created_at := now,
               updated_at := now, processed_at := none }) ∧
    (∀ r : MsgRecord, alistLookup l id = some r →
      r.status = MsgStatus.processed →
      check_and_increment now l id = (-1, l)) ∧
    (∀ r : MsgRecord, alistLookup l id = some r →
      r.status = MsgStatus.processing →
      (check_and_increment now l id).1 = ((r.attempts + 1 : Nat) : Int) ∧
      alistLookup (check_and_increment now l id).2 id =
        some { r with attempts := r.attempts + 1, status := .processing,
                      updated_at := now }) := by
  refine ⟨?_, ?_, ?_⟩
  · intro h
    exact ⟨by simp [check_and_increment, h], check_lookup_self_absent now l h⟩
  · intro r hr hs
    exact check_of_processed hr hs now
  · intro r hr hs
    have hsn : r.status ≠ MsgStatus.processed := by rw [hs]; simp
    constructor
    · simp [check_and_increment, hr]
      rw [if_neg hsn]
    · exact check_lookup_self_active now l hr hsn

/-- Witness for C2 at a concrete input: first delivery of `"m1"` against an
empty ledger creates the `attempts=1` record and returns attempt 1. -/
theorem c2_witness :
    check_and_increment 7 [] "m1" =
      (1, [("m1", { attempts := 1, status := .processing, created_at := 7,
                    updated_at := 7, processed_at := none })]) :=
  ((c2_check_and_increment_spec 7 [] "m1" (by decide)).1 rfl).1

/-- C6: once `mark_processed` has succeeded for an id, any number of
subsequent `check_and_increment` calls for that id all return the
already-done outcome `-1` and leave the ledger — hence the record's
`attempts` and `status` — entirely unchanged. -/
theorem c6_already_done_forever (now : Nat) (l : Ledger) (id : String)
    (l2 : Ledger) (h : mark_processed now l id = Except.ok l2) :
    ∀ ts : List Nat, checkMany l2 id ts = (ts.map (fun _ => (-1 : Int)), l2) := by
  have hp : processedFlag l2 id = true := processedFlag_after_mark h
  intro ts
  induction ts with
  | nil => rfl
  | cons t rest ih =>
    simp [checkMany, check_of_processedFlag hp t, ih]

/-- Witness for C6: after completing `"m1"`, three further duplicate checks
all answer `-1` and the ledger is untouched. -/
theorem c6_witness :
    checkMany [("m1", { attempts := 2, status := .processed, created_at := 0,
                        updated_at := 1, processed_at := some 9 })] "m1" [10, 11, 12] =
      ([-1, -1, -1],
       [("m1", { attempts := 2, status := .processed, created_at := 0,
                 updated_at := 1, processed_at := some 9 })]) :=
  c6_already_done_forever 9
    [("m1", { attempts := 2, status := .processing, created_at := 0,
              updated_at := 1, processed_at := none })] "m1" _ rfl [10, 11, 12]

/-- C7: along any sequence of `check_and_increment` / `mark_processed`
operations starting from a ledger with no record for the id, the record's
status never leaves `processed` once reached (transitions only
`processing → processed`) and its `attempts` value is monotonically
non-decreasing between any two points of the sequence. -/
theorem c7_status_and_attempts_monotone (id : String) (l0 : Ledger)
    (_habsent : alistLookup l0 id = none) (ops : List LedgerOp) (i j : Nat)
    (hij : i ≤ j) :
    attemptsAt (runOps l0 (ops.take i)) id ≤
      attemptsAt (runOps l0 (ops.take j)) id ∧
    (processedFlag (runOps l0 (ops.take i)) id = true →
      processedFlag (runOps l0 (ops.take j)) id = true) := by
  obtain ⟨k, rfl⟩ : ∃ k, j = i + k := ⟨j - i, by omega⟩
  rw [List.take_add, runOps_append]
  exact ⟨attemptsAt_runOps_mono _ _ id, processedFlag_runOps_mono _ _ id⟩

/-- Witness for C7: two checks then a completion of `"m1"` from the empty
ledger; between step 1 and step 3 the attempts do not decrease and the
processed status persists. -/
theorem c7_witness :
    attemptsAt (runOps []
      ([LedgerOp.check "m1" 1, LedgerOp.check "m1" 2,
        LedgerOp.mark "m1" 3].take 1)) "m1" ≤
      attemptsAt (runOps []
        ([LedgerOp.check "m1" 1, LedgerOp.check "m1" 2,
          LedgerOp.mark "m1" 3].take 3)) "m1" ∧
    (processedFlag (runOps []
      ([LedgerOp.check "m1" 1, LedgerOp.check "m1" 2,
        LedgerOp.mark "m1" 3].take 1)) "m1" = true →
      processedFlag (runOps []
        ([LedgerOp.check "m1" 1, LedgerOp.check "m1" 2,
          LedgerOp.mark "m1" 3].take 3)) "m1" = true) :=
  c7_status_and_attempts_monotone "m1" [] rfl
    [LedgerOp.check "m1" 1, LedgerOp.check "m1" 2, LedgerOp.mark "m1" 3]
    1 3 (by decide)

/-- C8: `mark_processed` is idempotent — after a successful call for an id,
calling it again succeeds (it is an update of an existing document), leaves
the record `processed` with the same `attempts`, changing nothing but the
`processed_at` stamp; repeated at the same instant it is literally a no-op. -/
theorem c8_mark_processed_idempotent (now t2 : Nat) (l : Ledger) (id : String)
    (l2 : Ledger) (h : mark_processed now l id = Except.ok l2) :
    mark_processed now l2 id = Except.ok l2 ∧
    (∃ l3 r2 r3, mark_processed t2 l2 id = Except.ok l3 ∧
      alistLookup l2 id = some r2 ∧ alistLookup l3 id = some r3 ∧
      r3 = { r2 with processed_at := some t2 } ∧
      r3.status = MsgStatus.processed ∧ r3.attempts = r2.attempts) := by
  obtain ⟨r, hr, rfl⟩ := mark_ok_elim h
  obtain ⟨ra, rs, rc, ru, rp⟩ := r
  have hl2 : alistLookup
      (alistUpdate l id
        { attempts := ra, status := .processed, created_at := rc,
          updated_at := ru, processed_at := some now }) id =
      some { attempts := ra, status := .processed, created_at := rc,
             updated_at := ru, processed_at := some now } :=
    alistLookup_update_self _ (by simp [hr])
  constructor
  · simp only [mark_processed, hl2]
    rw [alistUpdate_idem]
  · refine ⟨alistUpdate
        (alistUpdate l id
          { attempts := ra, status := .processed, created_at := rc,
            updated_at := ru, processed_at := some now }) id
        { attempts := ra, status := .processed, created_at := rc,
          updated_at := ru, processed_at := some t2 },
      { attempts := ra, status := .processed, created_at := rc,
        updated_at := ru, processed_at := some now },
      { attempts := ra, status := .processed, created_at := rc,
        updated_at := ru, processed_at := some t2 },
      ?_, hl2, ?_, rfl, rfl, rfl⟩
    · simp only [mark_processed, hl2]
    · exact alistLookup_update_self _ (by simp [hl2])

/-- C1: a delivery of a message id whose ledger record is already
`processed`, arriving with an empty endpoint retry dict, is nonetheless
acknowledged with a background task scheduled: the intake endpoint never
consults the `MessageTracker` ledger (here the whole `pubsub_messages` state
passes through `handleSystem` untouched), so a duplicate of completed work
triggers a fresh AI-call/email pipeline — contradicting the claimed
"acknowledge immediately and schedule no Background Processor invocation". -/
theorem c1_duplicate_of_processed_is_rescheduled :
    processedFlag processedLedger "m1" = true ∧
    handleSystem sampleDecode ⟨[], processedLedger⟩ (.json sampleEnvelope) =
      (⟨[], processedLedger⟩, ⟨204, some (samplePayload, .kstr "m1")⟩) :=
  ⟨rfl, rfl⟩

/-- C3 counterexample: the intake endpoint's budget constant is
`MAX_ENDPOINT_RETRIES = 3`, not the claimed `MAX_ATTEMPTS = 5`: a delivery of
`"m1"` with only 3 recorded endpoint retries — fewer than the claimed budget
of 5 — is already acknowledged (204) with no background task scheduled and
the counter cleared. -/
theorem c3_counterexample :
    MAX_ENDPOINT_RETRIES = 3 ∧ MAX_ENDPOINT_RETRIES ≠ 5 ∧
    handle_pubsub_push_notification sampleDecode [(.kstr "m1", 3)]
        (.json sampleEnvelope) = ([], ⟨204, none⟩) :=
  ⟨rfl, by decide, rfl⟩

/-- C3 (amended): once the in-memory endpoint retry count of a message id has
reached `MAX_ENDPOINT_RETRIES = 3`, the next delivery of that id is
acknowledged with 204, no background task is scheduled, and the counter is
cleared. -/
theorem c3_budget_enforced_at_three (decode : String → Option JVal)
    (counts : RetryCounts) (pm msg : List (String × JVal)) (mid : MsgKey)
    (hmsg : alistLookup pm "message" = some (.obj msg))
    (hmid : extractMsgId msg = some mid)
    (hcount : MAX_ENDPOINT_RETRIES ≤ get_endpoint_retry_count counts mid) :
    handle_pubsub_push_notification decode counts (.json (.obj pm)) =
      (clear_endpoint_retry_count counts mid, ⟨204, none⟩) := by
  simp [handle_pubsub_push_notification, hmsg, hmid, hcount]

/-- Witness for the amended C3: a count of 5 (≥ 3) leads to ack-and-drop. -/
theorem c3_witness :
    handle_pubsub_push_notification sampleDecode [(.kstr "x", 5)]
        (.json (.obj [("message", .obj [("messageId", .s "x")])])) =
      ([], ⟨204, none⟩) :=
  c3_budget_enforced_at_three sampleDecode [(.kstr "x", 5)]
    [("message", .obj [("messageId", .s "x")])] [("messageId", .s "x")]
    (.kstr "x") rfl rfl (by decide)

/-- C4 counterexample: a request body that is not valid JSON is answered
with HTTP 400 — a status Pub/Sub push does NOT treat as acknowledgment — so
the claimed "responds with a success status" is false (the
"no Background Processor invocation" half does hold). -/
theorem c4_counterexample :
    handle_pubsub_push_notification sampleDecode [] .notJson =
      ([], ⟨400, none⟩) ∧
    isAckStatus 400 = false :=
  ⟨rfl, rfl⟩

/-- C4 (amended): each unrecoverable per-message condition — body not valid
JSON; absent/falsy `data` field; undecodable (base64/UTF-8/JSON) string
`data` — yields HTTP 400 (a redelivery signal under the push contract, not a
success status), schedules no background task, and leaves the retry dict
unchanged. -/
theorem c4_unrecoverable_gets_400 :
    isAckStatus 400 = false ∧
    (∀ (decode : String → Option JVal) (counts : RetryCounts),
      handle_pubsub_push_notification decode counts .notJson =
        (counts, ⟨400, none⟩)) ∧
    (∀ (decode : String → Option JVal) (counts : RetryCounts)
        (pm msg : List (String × JVal)) (mid : MsgKey),
      alistLookup pm "message" = some (.obj msg) →
      extractMsgId msg = some mid →
      get_endpoint_retry_count counts mid < MAX_ENDPOINT_RETRIES →
      pyFalsy (match alistLookup msg "data" with
               | some d => d
               | none => JVal.s "") = true →
      handle_pubsub_push_notification decode counts (.json (.obj pm)) =
        (counts, ⟨400, none⟩)) ∧
    (∀ (decode : String → Option JVal) (counts : RetryCounts)
        (pm msg : List (String × JVal)) (mid : MsgKey) (sdata : String),
      alistLookup pm "message" = some (.obj msg) →
      extractMsgId msg = some mid →
      get_endpoint_retry_count counts mid < MAX_ENDPOINT_RETRIES →
      alistLookup msg "data" = some (.s sdata) →
      sdata ≠ "" →
      decode sdata = none →
      handle_pubsub_push_notification decode counts (.json (.obj pm)) =
        (counts, ⟨400, none⟩)) := by
  refine ⟨rfl, fun _ _ => rfl, ?_, ?_⟩
  · intro decode counts pm msg mid hmsg hmid hcount hfalsy
    have hnle : ¬ MAX_ENDPOINT_RETRIES ≤ get_endpoint_retry_count counts mid := by
      omega
    simp [handle_pubsub_push_notification, hmsg, hmid, hnle, hfalsy]
  · intro decode counts pm msg mid sdata hmsg hmid hcount hdata hne hdec
    have hnle : ¬ MAX_ENDPOINT_RETRIES ≤ get_endpoint_retry_count counts mid := by
      omega
    simp [handle_pubsub_push_notification, hmsg, hmid, hnle, hdata, pyFalsy,
          hne, hdec]

/-- Witness for the amended C4: an envelope whose `data` does not decode is
answered 400 with nothing scheduled. -/
theorem c4_witness :
    handle_pubsub_push_notification sampleDecode []
        (.json (.obj [("message",
          .obj [("messageId", .s "m9"), ("data", .s "!!notb64!!")])])) =
      ([], ⟨400, none⟩) :=
  c4_unrecoverable_gets_400.2.2.2 sampleDecode []
    [("message", .obj [("messageId", .s "m9"), ("data", .s "!!notb64!!")])]
    [("messageId", .s "m9"), ("data", .s "!!notb64!!")] (.kstr "m9")
    "!!notb64!!" rfl rfl (by decide) rfl (by decide) rfl

/-- C5: evaluating the background task at the failing input — a fully
successful run (normalize, profile generation and email dispatch all
succeed) for `"m1"` whose ledger record is mid-flight — completes without
raising, yet returns the ledger bit-for-bit unchanged: the record stays
`processing`, because `process_client_profile_generation` never calls
`MessageTracker.mark_processed` (contradicting the claimed "on success it
calls Ledger.mark_processed(message_id)"; the failure half of the claim —
no mark, no in-process retry, no propagation — is what the code does on
every path). -/
theorem c5_success_path_never_marks_processed :
    process_client_profile_generation processingLedger samplePayload "m1"
        true true true =
      (processingLedger,
       { completed := true, raised := false, normalizeRuns := 1,
         genRuns := 1, sendRuns := 1 }) ∧
    processedFlag processingLedger "m1" = false ∧
    (∀ (ledger : Ledger) (cd : JVal) (mi : String) (c g s : Bool),
      (process_client_profile_generation ledger cd mi c g s).1 = ledger ∧
      (process_client_profile_generation ledger cd mi c g s).2.raised = false ∧
      (process_client_profile_generation ledger cd mi c g s).2.normalizeRuns ≤ 1 ∧
      (process_client_profile_generation ledger cd mi c g s).2.genRuns ≤ 1 ∧
      (process_client_profile_generation ledger cd mi c g s).2.sendRuns ≤ 1) := by
  obtain ⟨w, hw⟩ := validate_and_clean_data_ok
    [("client_name", JVal.s "John Doe"), ("email", JVal.s "john@example.com"),
     ("project_type", JVal.s "Kitchen Remodel")]
  refine ⟨?_, rfl, ?_⟩
  · simp [process_client_profile_generation, normalizeStage, samplePayload, hw]
  · intro ledger cd mi c g s
    unfold process_client_profile_generation
    cases normalizeStage cd with
    | error e => simp
    | ok r =>
      cases c <;> cases g <;> cases s <;> simp

/-- C9: the normalizer `validate_and_clean_data` never raises: for every
input mapping it returns the sanitised mapping together with a list of
data-quality warning strings (the one raising operation on its path, the
dict subscription inside `validate_client_data`, is always applied to a key
drawn from the mapping's own key list). -/
theorem c9_validate_and_clean_never_raises (data : List (String × JVal)) :
    ∃ warnings, validate_and_clean_data data =
      Except.ok (sanitize_data data, warnings) :=
  validate_and_clean_data_ok data

/-- C10: the key set surviving `sanitize_data` — and hence the top-level key
set of the cleaned mapping every processed payload passes through — is
exactly the input keys whose lowercased form contains none of the substrings
`password`, `token`, `key`, `secret`, `auth`, `credential`; any key
containing one (the benign `room_key` included) is dropped with its value. -/
theorem c10_sanitize_key_set :
    (∀ data : List (String × JVal),
      (sanitize_data data).map Prod.fst =
        (data.map Prod.fst).filter (fun k => !hasSensitive k)) ∧
    hasSensitive "room_key" = true ∧
    (∀ data : List (String × JVal),
      ∃ warnings, validate_and_clean_data data =
        Except.ok (sanitize_data data, warnings)) := by
  refine ⟨?_, rfl, validate_and_clean_data_ok⟩
  intro data
  induction data with
  | nil => rfl
  | cons kv rest ih =>
    by_cases hk : hasSensitive kv.1 <;> simp [sanitize_data, hk] at ih ⊢ <;>
      exact ih

/-- Witness for C8: completing `"m1"` twice; the second call succeeds, and at
the same stamp is a literal no-op. -/
theorem c8_witness :
    mark_processed 5
      (alistUpdate [("m1", { attempts := 1, status := .processing, created_at := 0,
                             updated_at := 0, processed_at := none })] "m1"
        { attempts := 1, status := .processed, created_at := 0,
          updated_at := 0, processed_at := some 5 }) "m1" =
      Except.ok
        (alistUpdate [("m1", { attempts := 1, status := .processing, created_at := 0,
                               updated_at := 0, processed_at := none })] "m1"
          { attempts := 1, status := .processed, created_at := 0,
            updated_at := 0, processed_at := some 5 }) :=
  (c8_mark_processed_idempotent 5 6
    [("m1", { attempts := 1, status := .processing, created_at := 0,
              updated_at := 0, processed_at := none })] "m1" _ rfl).1

end InteriorAI
